import Mathlib

/-!
Verification of the risk_adjustment_model repository: a shallow embedding of
the category-determination and weighting pipeline (hierarchy resolution,
interaction derivation, demographic banding, weight aggregation and the
score-adjustment arithmetic), with theorems settling the behavioural claims
about it.

Conventions of the embedding:
* Python ints are modelled as `Int` (or `Nat` where the source guarantees
  non-negativity), Python floats as exact rationals `ℚ`; `round(x, n)` is
  modelled as decimal round-half-to-even (banker's rounding) at `n` digits.
* Python dicts are association lists (`List (key × value)`) looked up with
  `List.lookup`; dict keys are unique in all reference tables.
* A Python function that can raise is embedded as `Except String α`, the
  message recording the kind of exception raised.
* String primitives (`split`, `startswith`, `int(...)`) are re-implemented
  over `List Char` so that every definition reduces inside the kernel.
-/

/-- Characters of a string; Python iteration over a str. -/
def strChars (s : String) : List Char := s.toList

/-- Split a character list on a separator character, Python `str.split(sep)`
on a non-empty separator: `"0_34".split("_") = ["0", "34"]`. -/
def splitCharsOn (sep : Char) : List Char → List (List Char)
  | [] => [[]]
  | c :: cs =>
    let rest := splitCharsOn sep cs
    if c = sep then [] :: rest
    else
      match rest with
      | [] => [[c]]
      | r :: rs => (c :: r) :: rs

/-- Python `s.split(sep)` for a one-character separator. -/
def splitStr (sep : Char) (s : String) : List String :=
  (splitCharsOn sep (strChars s)).map String.mk

/-- Numeric value of a decimal digit character. -/
def charDigit (c : Char) : Nat := c.toNat - 48

/-- Accumulator loop of the decimal parser. -/
def parseNatChars : Nat → List Char → Nat
  | acc, [] => acc
  | acc, c :: cs => parseNatChars (acc * 10 + charDigit c) cs

/-- Python `int(s)` on the all-digit tokens that the age-band tables contain
(the source only ever applies `int` to numeric tokens of a range label). -/
def parseNat (s : String) : Nat := parseNatChars 0 (strChars s)

/-- Python `s.startswith(p)`, over character lists. -/
def charsStartWith : List Char → List Char → Bool
  | _, [] => true
  | [], _ :: _ => false
  | c :: cs, d :: ds => c = d && charsStartWith cs ds

/-- Python `s.startswith(p)`. -/
def strStartsWith (s p : String) : Bool := charsStartWith (strChars s) (strChars p)

/-- Rejoin string pieces with an underscore, inverse of splitting. -/
def joinUnderscore : List String → String
  | [] => ""
  | [x] => x
  | x :: xs => x ++ "_" ++ joinUnderscore xs

/-- Python `s.split("_", 1)[1]`: everything after the first underscore;
`none` models the `IndexError` raised when the key has no underscore. -/
def afterFirstUnderscore (s : String) : Option String :=
  match splitStr '_' s with
  | [] => none
  | [_] => none
  | _ :: rest => some (joinUnderscore rest)

/-- Python `f"...{x}..."` interpolation of an `Optional[str]` value: `None`
renders as the four characters `None`. -/
def pyStr : Option String → String
  | some s => s
  | none => "None"

/-- Round-half-to-even to an integer, the tie-breaking rule of Python 3
`round`. -/
def roundHalfEven (q : ℚ) : ℤ :=
  if q - ⌊q⌋ < 1 / 2 then ⌊q⌋
  else if 1 / 2 < q - ⌊q⌋ then ⌊q⌋ + 1
  else if ⌊q⌋ % 2 = 0 then ⌊q⌋ else ⌊q⌋ + 1

/-- Python `round(q, ndigits)` modelled exactly over ℚ. -/
def pyRound (ndigits : Nat) (q : ℚ) : ℚ :=
  (roundHalfEven (q * 10 ^ ndigits) : ℚ) / 10 ^ ndigits

/-!
`utilities.determine_age_band` (src/risk_adjustment_model/utilities.py):
walks the ordered range labels, parses each label into inclusive lower /
exclusive upper bounds (defaults `0, 999`; a single number `n` means
`[n, n+1)`; `n_GT` means `[n, 999)`; `a_b` means `[a, b+1)`) and returns the
first label containing the age, or `None` when no label matches.
-/

/-- Bounds `(lower, upper)` parsed from one range label, per the source's
three-way branch on the split label. -/
def ageBandBounds (ageRange : String) : Int × Int :=
  match splitStr '_' ageRange with
  | [] => (0, 999)
  | [lowerTok] => ((parseNat lowerTok : Int), (parseNat lowerTok : Int) + 1)
  | lowerTok :: upperTok :: _ =>
    if upperTok = "GT" then ((parseNat lowerTok : Int), 999)
    else ((parseNat lowerTok : Int), (parseNat upperTok : Int) + 1)

/-- `determine_age_band(age, age_ranges)`: first containing range label, or
`none`. -/
def determineAgeBand (age : Int) : List String → Option String
  | [] => none
  | ageRange :: rest =>
    let bounds := ageBandBounds ageRange
    if bounds.1 ≤ age ∧ age < bounds.2 then some ageRange
    else determineAgeBand age rest

/-!
`BaseMedicareModel._apply_hierarchies`
(src/risk_adjustment_model/medicare_model.py): the source walks
`category_list` with a `for` loop while calling `category_list.remove(...)`
on it.  A Python `for` over a list is index-driven: the iterator yields
`lst[i]` and advances `i`, so a removal at a position at or before the
current one shifts the remaining elements left and the element that moved
into the next slot is skipped.  The loop below reproduces exactly that
semantics: `i` is the iterator index over the in-place-mutated list.  The
`fuel` argument only bounds the iteration count for structural recursion;
`categories.length` steps always suffice because the index grows by one per
step and the list never grows.
-/

/-- The inner `for remove_category in ...remove_code` loop:
`try category_list.remove(...) except ValueError: pass`, recording each
removal that actually happened (`List.erase` drops the first occurrence and
is the identity when the element is absent, matching `list.remove` guarded
by the `try`). -/
def applyRemovals : List String → List String → List String → List String × List String
  | [], categoryList, droppedCodes => (categoryList, droppedCodes)
  | removeCategory :: rest, categoryList, droppedCodes =>
    if removeCategory ∈ categoryList then
      applyRemovals rest (categoryList.erase removeCategory) (droppedCodes ++ [removeCategory])
    else
      applyRemovals rest categoryList droppedCodes

/-- The mutate-while-iterating `for category in category_list` loop. -/
def medicareHierLoop (hierarchyDefinitions : List (String × List String)) :
    Nat → Nat → List String → List String → List String × List String
  | 0, _, categoryList, droppedCodesTotal => (categoryList, droppedCodesTotal)
  | fuel + 1, i, categoryList, droppedCodesTotal =>
    if h : i < categoryList.length then
      let category := categoryList.get ⟨i, h⟩
      match hierarchyDefinitions.lookup category with
      | none => medicareHierLoop hierarchyDefinitions fuel (i + 1) categoryList droppedCodesTotal
      | some removeCodes =>
        let result := applyRemovals removeCodes categoryList []
        medicareHierLoop hierarchyDefinitions fuel (i + 1) result.1 (droppedCodesTotal ++ result.2)
    else (categoryList, droppedCodesTotal)

/-- `BaseMedicareModel._apply_hierarchies(categories)`: returns the surviving
category list (the source's mutated `category_list`, also the key set of its
`categories_dict` audit map) together with `dropped_codes_total`. -/
def applyHierarchiesMedicare (hierarchyDefinitions : List (String × List String))
    (categories : List String) : List String × List String :=
  medicareHierLoop hierarchyDefinitions categories.length 0 categories []

/-!
`CommercialModel._apply_hierarchies` (src/risk_adjustment_model/model.py):
iterates over the input `categories` without mutating it, testing each
declared removal target for membership in `category_list` — the *frozen*
name list of the original input — and finally filters out everything that
anyone dropped.  Categories that are themselves dropped still exercise
their own suppressions.  (The `commercial_model.py` copy of the method has
the same semantics, splitting the result into kept and dropped objects.)
-/

/-- The removal targets one category contributes to `dropped_codes_total`:
its hierarchy entry filtered to targets present in the frozen name list. -/
def droppedForCategory (hierarchyDefinitions : List (String × List String))
    (categoryList : List String) (category : String) : List String :=
  match hierarchyDefinitions.lookup category with
  | none => []
  | some removeCodes => removeCodes.filter (fun r => decide (r ∈ categoryList))

/-- `dropped_codes_total` accumulated over the iteration list. -/
def commercialDroppedTotal (hierarchyDefinitions : List (String × List String))
    (categoryList : List String) : List String → List String
  | [] => []
  | category :: rest =>
    droppedForCategory hierarchyDefinitions categoryList category ++
      commercialDroppedTotal hierarchyDefinitions categoryList rest

/-- `CommercialModel._apply_hierarchies(categories)` survivor list. -/
def applyHierarchiesCommercial (hierarchyDefinitions : List (String × List String))
    (categories : List String) : List String :=
  categories.filter
    (fun category =>
      !decide (category ∈ commercialDroppedTotal hierarchyDefinitions categories categories))

/-!
Score adjustment (src/risk_adjustment_model/medicare_model.py
`_apply_norm_factor_coding_adj` and src/risk_adjustment_model/model.py
`_apply_csr_adj`).
-/

/-- `BaseMedicareModel._apply_norm_factor_coding_adj(score)`:
`round(round(score * coding_intesity_adjuster, 4) / normalization_factor, 4)`
(the misspelt attribute name is the source's). -/
def applyNormFactorCodingAdj (codingIntesityAdjuster normalizationFactor score : ℚ) : ℚ :=
  pyRound 4 (pyRound 4 (score * codingIntesityAdjuster) / normalizationFactor)

/-- `CommercialModel._apply_csr_adj(score)`: `round(score * csr_adjuster, 3)`. -/
def applyCsrAdj (csrAdjuster score : ℚ) : ℚ :=
  pyRound 3 (score * csrAdjuster)

/-!
`BaseMedicareModel.get_weights(categories, population)`
(src/risk_adjustment_model/medicare_model.py): for each category, the inner
`for key, value in self.category_definitions.items(): if cat == key`
resolves the category's definition (a dict lookup); a category with no
definition entry is silently skipped.  For a defined category
`self.category_weights[cat][population]` is read — a missing key raises
`KeyError` and aborts the call.  Weights accumulate into the total plus the
disease / demographic subtotals by definition type, and the three raw sums
are finally adjusted with `_apply_norm_factor_coding_adj`.
-/

/-- One entry of the `category_definition.json` reference table. -/
structure CategoryDefinition where
  type : String
  number : Option Int
  descr : String
deriving DecidableEq

/-- One entry of the `categories` map of the `get_weights` output. -/
structure CategoryOutputDetail where
  weight : ℚ
  type : String
  categoryNumber : Option Int
  categoryDescription : String
deriving DecidableEq

/-- The `cat_output` dictionary built by `get_weights`. -/
structure WeightsOutput where
  categories : List (String × CategoryOutputDetail)
  scoreRaw : ℚ
  diseaseScoreRaw : ℚ
  demographicScoreRaw : ℚ
  score : ℚ
  diseaseScore : ℚ
  demographicScore : ℚ
deriving DecidableEq

deriving instance DecidableEq for Except

/-- The `for cat in categories` accumulation loop of `get_weights`; the
state is `(category_dict, score, disease_score, demographic_score)`. -/
def getWeightsLoop (categoryDefinitions : List (String × CategoryDefinition))
    (categoryWeights : List (String × List (String × ℚ))) (population : String) :
    List String → List (String × CategoryOutputDetail) × ℚ × ℚ × ℚ →
    Except String (List (String × CategoryOutputDetail) × ℚ × ℚ × ℚ)
  | [], state => .ok state
  | cat :: rest, (categoryDict, score, diseaseScore, demographicScore) =>
    match categoryDefinitions.lookup cat with
    | none =>
      getWeightsLoop categoryDefinitions categoryWeights population rest
        (categoryDict, score, diseaseScore, demographicScore)
    | some value =>
      match (categoryWeights.lookup cat).bind (fun m => m.lookup population) with
      | none => .error ("KeyError: " ++ cat)
      | some weight =>
        getWeightsLoop categoryDefinitions categoryWeights population rest
          (categoryDict ++ [(cat, ⟨weight, value.type, value.number, value.descr⟩)],
           score + weight,
           (if value.type = "disease" ∨ value.type = "disease_interaction"
            then diseaseScore + weight else diseaseScore),
           (if value.type = "demographic" then demographicScore + weight
            else demographicScore))

/-- `BaseMedicareModel.get_weights(categories, population)`. -/
def getWeights (categoryDefinitions : List (String × CategoryDefinition))
    (categoryWeights : List (String × List (String × ℚ)))
    (codingIntesityAdjuster normalizationFactor : ℚ)
    (categories : List String) (population : String) : Except String WeightsOutput :=
  match getWeightsLoop categoryDefinitions categoryWeights population categories
      ([], 0, 0, 0) with
  | .error e => .error e
  | .ok (categoryDict, score, diseaseScore, demographicScore) =>
    .ok
      { categories := categoryDict
        scoreRaw := score
        diseaseScoreRaw := diseaseScore
        demographicScoreRaw := demographicScore
        score := applyNormFactorCodingAdj codingIntesityAdjuster normalizationFactor score
        diseaseScore :=
          applyNormFactorCodingAdj codingIntesityAdjuster normalizationFactor diseaseScore
        demographicScore :=
          applyNormFactorCodingAdj codingIntesityAdjuster normalizationFactor demographicScore }

/-!
`MedicareModelV24._determine_payment_count_category(categories)`
(src/risk_adjustment_model/v24.py; `MedicareModel._get_payment_count_categories`
in the older src/medicare_model.py snapshot is line-for-line the same).
-/

/-- Payment count bucket: `D10P` above nine categories, otherwise `D{n}`
for a positive count, otherwise `None`. -/
def determinePaymentCountCategory (categories : List String) : Option String :=
  if categories.length > 9 then some "D10P"
  else if categories.length > 0 then some ("D" ++ toString categories.length)
  else none

/-- Rank of a count bucket for comparing buckets: `D{n}` ranks `n`, the cap
`D10P` ranks `10`, no bucket ranks `0`. -/
def countBucketRank : Option String → Nat
  | none => 0
  | some s => if s = "D10P" then 10 else parseNat (String.mk ((strChars s).drop 1))

/-!
`MedicareModelV24._determine_disease_interactions(categories, beneficiary)`
(src/risk_adjustment_model/v24.py).  Category objects are projected to the
two fields the rule logic reads, `category` (the name) and `type`;
`Category(reference_files, population, name)` construction is abstracted as
an `mkCategory` parameter since it only resolves metadata for the new name.
-/

/-- The two fields of a `Category` object that interaction rules read. -/
structure CategoryObj where
  category : String
  type : String
deriving DecidableEq

/-- The ordered `interactions_dict` of v24: one `(name, fired?)` pair per
rule, evaluated over the disease-category name list and the beneficiary's
`disabled` flag. -/
def v24InteractionsDict (disabled : Bool) (categoryList : List String) :
    List (String × Bool) :=
  let cancer := ["HCC8", "HCC9", "HCC10", "HCC11", "HCC12"].any categoryList.contains
  let diabetes := ["HCC17", "HCC18", "HCC19"].any categoryList.contains
  let cardRespFail := ["HCC82", "HCC83", "HCC84"].any categoryList.contains
  let chf := categoryList.contains "HCC85"
  let gCopdCf := ["HCC110", "HCC111", "HCC112"].any categoryList.contains
  let renalV24 := ["HCC134", "HCC135", "HCC136", "HCC137", "HCC138"].any categoryList.contains
  let sepsis := categoryList.contains "HCC2"
  let gSubstanceUseDisorderV24 := ["HCC54", "HCC55", "HCC56"].any categoryList.contains
  let gPyshiatricV24 := ["HCC57", "HCC58", "HCC59", "HCC60"].any categoryList.contains
  let pressureUlcer := ["HCC157", "HCC158", "HCC159"].any categoryList.contains
  let hcc47 := categoryList.contains "HCC47"
  let hcc96 := categoryList.contains "HCC96"
  let hcc188 := categoryList.contains "HCC188"
  let hcc114 := categoryList.contains "HCC114"
  let hcc57 := categoryList.contains "HCC57"
  let hcc79 := categoryList.contains "HCC79"
  [("HCC47_gCancer", cancer && hcc47),
   ("DIABETES_CHF", diabetes && chf),
   ("CHF_gCopdCF", chf && gCopdCf),
   ("HCC85_gRenal_V24", chf && renalV24),
   ("gCopdCF_CARD_RESP_FAIL", gCopdCf && cardRespFail),
   ("HCC85_HCC96", chf && hcc96),
   ("gSubstanceUseDisorder_gPsych", gPyshiatricV24 && gSubstanceUseDisorderV24),
   ("SEPSIS_PRESSURE_ULCER", sepsis && pressureUlcer),
   ("SEPSIS_ARTIF_OPENINGS", sepsis && hcc188),
   ("ART_OPENINGS_PRESS_ULCER", hcc188 && pressureUlcer),
   ("gCopdCF_ASP_SPEC_B_PNEUM", gCopdCf && hcc114),
   ("ASP_SPEC_B_PNEUM_PRES_ULC", hcc114 && pressureUlcer),
   ("SEPSIS_ASP_SPEC_BACT_PNEUM", sepsis && hcc114),
   ("SCHIZOPHRENIA_gCopdCF", hcc57 && gCopdCf),
   ("SCHIZOPHRENIA_CHF", hcc57 && chf),
   ("SCHIZOPHRENIA_SEIZURES", hcc57 && hcc79),
   ("DISABLED_HCC85", disabled && chf),
   ("DISABLED_PRESSURE_ULCER", disabled && pressureUlcer),
   ("DISABLED_HCC161", disabled && categoryList.contains "HCC161"),
   ("DISABLED_HCC39", disabled && categoryList.contains "HCC39"),
   ("DISABLED_HCC77", disabled && categoryList.contains "HCC77"),
   ("DISABLED_HCC6", disabled && categoryList.contains "HCC6")]

/-- Names of the disease-typed categories among the input objects, the
source's `category_list`. -/
def diseaseCategoryNames (categories : List CategoryObj) : List String :=
  (categories.filter (fun c => decide (c.type = "disease"))).map CategoryObj.category

/-- The firing-rule names plus the optional payment count category: the
source's final `interaction_list`. -/
def v24InteractionList (disabled : Bool) (categoryList : List String) : List String :=
  let interactionList := ((v24InteractionsDict disabled categoryList).filter
    (fun kv => kv.2)).map Prod.fst
  match determinePaymentCountCategory categoryList with
  | some categoryCount => interactionList ++ [categoryCount]
  | none => interactionList

/-- `MedicareModelV24._determine_disease_interactions`: builds a `Category`
object per firing rule, then `interactions.extend(categories)` — the new
objects followed by every input object. -/
def v24DetermineDiseaseInteractions (mkCategory : String → CategoryObj)
    (disabled : Bool) (categories : List CategoryObj) : List CategoryObj :=
  ((v24InteractionList disabled (diseaseCategoryNames categories)).map mkCategory) ++
    categories

/-!
`CommercialModel._determine_disease_interactions(categories, beneficiary)`
(src/risk_adjustment_model/model.py, the base-class placeholder): its
`interaction_list` is empty, and it then executes
`interactions.append(categories)` — `append`, not `extend` — pushing the
whole input *list* onto `interactions` as one element.  The returned value
is therefore heterogeneous: a list whose single element is itself the list
of input categories.  The sum type below captures the two element shapes.
-/

/-- An element of the placeholder's returned list: either a `Category`
object or a whole list of them (the result of `list.append(list)`). -/
inductive InteractionEntry where
  | obj : CategoryObj → InteractionEntry
  | objList : List CategoryObj → InteractionEntry
deriving DecidableEq

/-- The base-class `_determine_disease_interactions` placeholder of
`model.py` (identical in `commercial_model.py`). -/
def commercialDetermineDiseaseInteractionsBase (mkCategory : String → CategoryObj)
    (categories : List CategoryObj) : List InteractionEntry :=
  let interactionList : List String := []
  let interactions := interactionList.map (fun c => InteractionEntry.obj (mkCategory c))
  interactions ++ [InteractionEntry.objList categories]

/-!
`BaseMedicareModel._determine_demographic_cats(age, gender, population)`
(src/risk_adjustment_model/medicare_model.py): picks the new-enrollee or
community range table on `population[:2] == "NE"`, resolves the band with
`determine_age_band`, and interpolates it into an f-string.  When the band
lookup returns `None` the f-string renders the literal text `None` into the
category name — nothing raises.
-/

/-- The new-enrollee demographic range labels of the source. -/
def neDemoCategoryRanges : List String :=
  ["0_34", "35_44", "45_54", "55_59", "60_64",
   "65", "66", "67", "68", "69", "70_74",
   "75_79", "80_84", "85_89", "90_94", "95_GT"]

/-- The community (non-new-enrollee) demographic range labels of the source. -/
def communityDemoCategoryRanges : List String :=
  ["0_34", "35_44", "45_54", "55_59", "60_64",
   "65_69", "70_74", "75_79", "80_84", "85_89",
   "90_94", "95_GT"]

/-- Python `population[:2] == "NE"`. -/
def isNePopulation (population : String) : Bool :=
  (strChars population).take 2 = ['N', 'E']

/-- `BaseMedicareModel._determine_demographic_cats`. -/
def determineDemographicCats (age : Int) (gender population : String) : String :=
  let demoCategoryRanges :=
    if isNePopulation population then neDemoCategoryRanges else communityDemoCategoryRanges
  let demographicCategoryRange := determineAgeBand age demoCategoryRanges
  if isNePopulation population then "NE" ++ gender ++ pyStr demographicCategoryRange
  else gender ++ pyStr demographicCategoryRange

/-!
`MedicareBeneficiary` (src/risk_adjustment_model/beneficiary.py).
-/

/-- A calendar date as Python's `datetime` exposes it to the age
computation: `(year, month, day)`. -/
structure PyDate where
  year : Int
  month : Nat
  day : Nat
deriving DecidableEq

/-- `MedicareBeneficiary._determine_age(age, dob)`: with a date of birth the
age is computed against February 1 of the model year (requiring the model
year); otherwise the supplied age is returned as-is. -/
def determineAge (modelYear : Option Int) (age : Option Int) (dob : Option PyDate) :
    Except String (Option Int) :=
  match dob with
  | some d =>
    match modelYear with
    | none => .error "ValueError: When date of birth is provided, model year must also be provided"
    | some my =>
      .ok (some (my - d.year - (if 2 < d.month ∨ (2 = d.month ∧ 1 < d.day) then 1 else 0)))
  | none => .ok age

/-- `MedicareBeneficiary._determine_disabled(age, orec)`.  The source
annotates `age: int` but `__init__` passes `self.age`, which is `None`
whenever only a date of birth was supplied; evaluating `age < 65` on `None`
raises `TypeError` in Python 3, modelled by the `none` branch. -/
def determineDisabled (age : Option Int) (orec : String) : Except String (Bool × Bool) :=
  match age with
  | none => .error "TypeError: comparison of NoneType and int"
  | some a =>
    let disabled := decide (a < 65) && decide (orec ≠ "0")
    let origDisabled := (decide (orec = "1") || decide (orec = "3")) && !disabled
    .ok (disabled, origDisabled)

/-- `MedicareBeneficiary._get_new_enrollee_population(age, orec, medicaid)`
(src/risk_adjustment_model/beneficiary.py): the four sequential `if`
statements rebind `ne_population`, and a final guard raises `ValueError`
when none of them assigned.  (`BaseMedicareModel._get_new_enrollee_population`
in medicare_model.py is the same decision table without the guard.) -/
def getNewEnrolleePopulation (age : Int) (orec : String) (medicaid : Bool) :
    Except String String :=
  let neOriginallyDisabled : Bool := decide (age ≥ 65) && decide (orec = "1")
  let nePopulation : Option String := none
  let nePopulation :=
    if !neOriginallyDisabled && !medicaid then some "NE_NMCAID_NORIGDIS" else nePopulation
  let nePopulation :=
    if !neOriginallyDisabled && medicaid then some "NE_MCAID_NORIGDIS" else nePopulation
  let nePopulation :=
    if neOriginallyDisabled && !medicaid then some "NE_NMCAID_ORIGDIS" else nePopulation
  let nePopulation :=
    if neOriginallyDisabled && medicaid then some "NE_MCAID_ORIGDIS" else nePopulation
  match nePopulation with
  | none => .error "ValueError: unable to determine risk model population"
  | some p => .ok p

/-- The attributes `MedicareBeneficiary.__init__` derives. -/
structure MedicareBeneficiary where
  gender : String
  orec : String
  medicaid : Bool
  population : String
  age : Option Int
  dob : Option PyDate
  modelYear : Option Int
  riskModelAge : Option Int
  disabled : Bool
  origDisabled : Bool
  riskModelPopulation : String
deriving DecidableEq

/-- `MedicareBeneficiary.__init__`, in source order: the base-class guard
(age or dob required), `risk_model_age` from `_determine_age`, then
`self.disabled, self.orig_disabled = self._determine_disabled(self.age,
self.orec)` — note: `self.age`, the raw constructor argument, not the
resolved `risk_model_age` — then the new-enrollee population split. -/
def medicareBeneficiaryInit (gender orec : String) (medicaid : Bool) (population : String)
    (age : Option Int) (dob : Option PyDate) (modelYear : Option Int) :
    Except String MedicareBeneficiary := do
  if age = none ∧ dob = none then
    throw "ValueError: Either age or dob must be provided."
  let riskModelAge ← determineAge modelYear age dob
  let flags ← determineDisabled age orec
  let riskModelPopulation ←
    if population = "NE" then
      match riskModelAge with
      | some a => getNewEnrolleePopulation a orec medicaid
      | none => throw "TypeError: risk model age missing"
    else pure population
  pure
    { gender := gender, orec := orec, medicaid := medicaid, population := population
      age := age, dob := dob, modelYear := modelYear, riskModelAge := riskModelAge
      disabled := flags.1, origDisabled := flags.2
      riskModelPopulation := riskModelPopulation }

/-!
`CommercialModel.score` (src/risk_adjustment_model/model.py, lines 181-185):
once the beneficiary's age group is known the method executes

  self.reference_files.category_weights = {
      key.split("_", 1)[1]: self.reference_files.category_weights[key]
      for key in self.reference_files.category_weights.keys()
      if key.startswith(beneficiary.risk_model_age_group) }

destructively replacing the shared weight table with the age-group slice
under stripped keys.  (The `commercial_model.py` rewrite instead writes the
slice into a deep-copied `model_group_reference_files`, leaving
`reference_files` intact.)
-/

/-- The weight-table slice of the instance's reference files that
`CommercialModel.score` mutates. -/
structure ReferenceFilesState where
  categoryWeights : List (String × ℚ)
deriving DecidableEq

/-- The dict comprehension: keep the keys starting with the age group, rekey
each by everything after its first underscore.  (`filterMap` drops a key
with no underscore; in Python that would be an `IndexError`, and every key
of the shipped weight tables is `agegroup_category`.) -/
def pareCategoryWeights (riskModelAgeGroup : String)
    (categoryWeights : List (String × ℚ)) : List (String × ℚ) :=
  (categoryWeights.filter (fun kv => strStartsWith kv.1 riskModelAgeGroup)).filterMap
    (fun kv => (afterFirstUnderscore kv.1).map (fun newKey => (newKey, kv.2)))

/-- The assignment statement itself, as a transition on the instance state. -/
def scorePareWeightsStep (riskModelAgeGroup : String) (rf : ReferenceFilesState) :
    ReferenceFilesState :=
  ⟨pareCategoryWeights riskModelAgeGroup rf.categoryWeights⟩

/-- Sample output record for the C2 witness: what `get_weights` returns for
the single defined category `HCC1` with weight `3/10` under population
`CNA`, coding intensity adjuster `941/1000` and normalization factor
`1015/1000` (fields written exactly as the accumulation produces them). -/
def c2SampleOutput : WeightsOutput :=
  { categories := [] ++ [("HCC1", ⟨3 / 10, "disease", some 1, "HIV/AIDS"⟩)]
    scoreRaw := 0 + 3 / 10
    diseaseScoreRaw := 0 + 3 / 10
    demographicScoreRaw := 0
    score := applyNormFactorCodingAdj (941 / 1000) (1015 / 1000) (0 + 3 / 10)
    diseaseScore := applyNormFactorCodingAdj (941 / 1000) (1015 / 1000) (0 + 3 / 10)
    demographicScore := applyNormFactorCodingAdj (941 / 1000) (1015 / 1000) 0 }

/-!
## Theorems
-/

/-- Membership in the per-category removal contribution of the commercial
hierarchy pass. -/
theorem mem_droppedForCategory {hierarchyDefinitions : List (String × List String)}
    {categoryList : List String} {category x : String} :
    x ∈ droppedForCategory hierarchyDefinitions categoryList category ↔
      ∃ removeCodes, hierarchyDefinitions.lookup category = some removeCodes ∧
        x ∈ removeCodes ∧ x ∈ categoryList := by
  unfold droppedForCategory
  cases h : hierarchyDefinitions.lookup category with
  | none => simp
  | some removeCodes => simp [List.mem_filter]

/-- Membership in `dropped_codes_total` of the commercial hierarchy pass. -/
theorem mem_commercialDroppedTotal {hierarchyDefinitions : List (String × List String)}
    {categoryList : List String} {iter : List String} {x : String} :
    x ∈ commercialDroppedTotal hierarchyDefinitions categoryList iter ↔
      ∃ c ∈ iter, x ∈ droppedForCategory hierarchyDefinitions categoryList c := by
  induction iter with
  | nil => simp [commercialDroppedTotal]
  | cons c cs ih => simp [commercialDroppedTotal, ih]

/-- C1: the claim asserts that in `_apply_hierarchies`, with A suppressing B
and B suppressing C and all three present, iterating A before B leaves C in
the survivor set.  The commercial implementation (model.py) refutes it:
every input category tests its removal targets against the frozen input
name list, so B — although itself dropped by A — still drops C, and the
survivors of `[A, B, C]` are `[A]` with C absent. -/
theorem C1_counterexample :
    applyHierarchiesCommercial [("A", ["B"]), ("B", ["C"])] ["A", "B", "C"] = ["A"] ∧
    "C" ∉ applyHierarchiesCommercial [("A", ["B"]), ("B", ["C"])] ["A", "B", "C"] := by
  decide

/-- C1 (amended): the asymmetry holds in the Medicare implementation
(medicare_model.py), which mutates the iteration list: with A before B, B is
removed before it can suppress, so C survives (`[A, C]`), while iterating B
first yields `[A]` — iteration order decides C's fate.  The commercial
implementation (model.py) instead drops C under both orders because a
category removed by an earlier suppressor still exercises its own
suppressions against the frozen input list. -/
theorem C1_amended :
    (applyHierarchiesMedicare [("A", ["B"]), ("B", ["C"])] ["A", "B", "C"]).1 = ["A", "C"] ∧
    (applyHierarchiesMedicare [("A", ["B"]), ("B", ["C"])] ["B", "A", "C"]).1 = ["A"] ∧
    applyHierarchiesCommercial [("A", ["B"]), ("B", ["C"])] ["A", "B", "C"] = ["A"] ∧
    applyHierarchiesCommercial [("A", ["B"]), ("B", ["C"])] ["B", "A", "C"] = ["A"] := by
  decide

/-- C3: the claim asserts hierarchy resolution is idempotent for every
input.  The Medicare implementation refutes it: on `[X, A, Y, Z]` with A
suppressing X and Y suppressing Z, removing X (behind the iterator) shifts
the list so the iterator skips Y, whose suppression never fires and Z
survives; re-running on the survivor set `[A, Y, Z]` lets Y drop Z. -/
theorem C3_counterexample :
    (applyHierarchiesMedicare [("A", ["X"]), ("Y", ["Z"])] ["X", "A", "Y", "Z"]).1 =
      ["A", "Y", "Z"] ∧
    (applyHierarchiesMedicare [("A", ["X"]), ("Y", ["Z"])] ["A", "Y", "Z"]).1 = ["A", "Y"] ∧
    (["A", "Y"] : List String) ≠ ["A", "Y", "Z"] := by
  decide

/-- C3 (amended): the commercial `_apply_hierarchies` is idempotent for
every hierarchy table and every input list — no survivor of a pass can be
dropped by a second pass, because every suppression was already exercised
against the full input. -/
theorem C3_amended (hierarchyDefinitions : List (String × List String))
    (categories : List String) :
    applyHierarchiesCommercial hierarchyDefinitions
        (applyHierarchiesCommercial hierarchyDefinitions categories) =
      applyHierarchiesCommercial hierarchyDefinitions categories := by
  unfold applyHierarchiesCommercial
  rw [List.filter_eq_self]
  intro c hc
  rw [List.mem_filter] at hc
  obtain ⟨hcMem, hcKeep⟩ := hc
  simp only [Bool.not_eq_eq_eq_not, Bool.not_true, decide_eq_false_iff_not] at hcKeep ⊢
  intro hDrop
  apply hcKeep
  rw [mem_commercialDroppedTotal] at hDrop
  obtain ⟨d, hdMem, hdDrop⟩ := hDrop
  rw [mem_droppedForCategory] at hdDrop
  obtain ⟨removeCodes, hLookup, hxCodes, hxMember⟩ := hdDrop
  rw [List.mem_filter] at hdMem hxMember
  rw [mem_commercialDroppedTotal]
  exact ⟨d, hdMem.1, mem_droppedForCategory.mpr ⟨removeCodes, hLookup, hxCodes, hxMember.1⟩⟩

/-- C2: every score `get_weights` emits is the raw sum adjusted by
`round(round(raw * coding_intensity_adjuster, 4) / normalization_factor, 4)`
— a fixed-decimal rounding after the multiplication step and again after the
division step; the commercial CSR adjustment likewise rounds immediately
after its multiplication; and round-after-each-step genuinely differs from
rounding once at the end of the chain. -/
theorem C2_rounding (categoryDefinitions : List (String × CategoryDefinition))
    (categoryWeights : List (String × List (String × ℚ)))
    (codingIntesityAdjuster normalizationFactor : ℚ)
    (categories : List String) (population : String) (out : WeightsOutput)
    (h : getWeights categoryDefinitions categoryWeights codingIntesityAdjuster
        normalizationFactor categories population = .ok out) :
    (out.score =
        pyRound 4 (pyRound 4 (out.scoreRaw * codingIntesityAdjuster) / normalizationFactor) ∧
      out.diseaseScore =
        pyRound 4 (pyRound 4 (out.diseaseScoreRaw * codingIntesityAdjuster) /
          normalizationFactor) ∧
      out.demographicScore =
        pyRound 4 (pyRound 4 (out.demographicScoreRaw * codingIntesityAdjuster) /
          normalizationFactor)) ∧
    (∀ csrAdjuster s : ℚ, applyCsrAdj csrAdjuster s = pyRound 3 (s * csrAdjuster)) ∧
    (∃ s c n : ℚ, pyRound 4 (pyRound 4 (s * c) / n) ≠ pyRound 4 (s * c / n)) := by
  refine ⟨?_, fun csrAdjuster s => rfl,
    ⟨1 / 10000, 941 / 1000, 1 / 1000, by norm_num [pyRound, roundHalfEven]⟩⟩
  unfold getWeights at h
  rcases hl : getWeightsLoop categoryDefinitions categoryWeights population categories
      ([], 0, 0, 0) with e | st
  · rw [hl] at h
    cases h
  · rw [hl] at h
    obtain ⟨categoryDict, score, diseaseScore, demographicScore⟩ := st
    cases h
    exact ⟨rfl, rfl, rfl⟩

/-- C2 witness: the rounding-shape theorem applied to a concrete
`get_weights` run over one disease category. -/
theorem C2_rounding_witness :
    (c2SampleOutput.score =
        pyRound 4 (pyRound 4 (c2SampleOutput.scoreRaw * (941 / 1000)) / (1015 / 1000)) ∧
      c2SampleOutput.diseaseScore =
        pyRound 4 (pyRound 4 (c2SampleOutput.diseaseScoreRaw * (941 / 1000)) / (1015 / 1000)) ∧
      c2SampleOutput.demographicScore =
        pyRound 4 (pyRound 4 (c2SampleOutput.demographicScoreRaw * (941 / 1000)) /
          (1015 / 1000))) ∧
    (∀ csrAdjuster s : ℚ, applyCsrAdj csrAdjuster s = pyRound 3 (s * csrAdjuster)) ∧
    (∃ s c n : ℚ, pyRound 4 (pyRound 4 (s * c) / n) ≠ pyRound 4 (s * c / n)) :=
  C2_rounding [("HCC1", ⟨"disease", some 1, "HIV/AIDS"⟩)] [("HCC1", [("CNA", 3 / 10)])]
    (941 / 1000) (1015 / 1000) ["HCC1"] "CNA" c2SampleOutput rfl

/-- A category in `get_weights` whose definition exists but whose weight
entry for the population is missing aborts the whole accumulation loop with
a `KeyError`, whatever the incoming accumulator state. -/
theorem getWeightsLoop_missing_weight (categoryDefinitions : List (String × CategoryDefinition))
    (categoryWeights : List (String × List (String × ℚ))) (population cat : String) :
    ∀ (categories : List String)
      (state : List (String × CategoryOutputDetail) × ℚ × ℚ × ℚ),
      cat ∈ categories →
      (categoryDefinitions.lookup cat).isSome = true →
      (categoryWeights.lookup cat).bind (fun m => m.lookup population) = none →
      ∃ e, getWeightsLoop categoryDefinitions categoryWeights population categories state =
        .error e := by
  intro categories
  induction categories with
  | nil => intro state hMem; cases hMem
  | cons c rest ih =>
    intro state hMem hDef hWeight
    obtain ⟨categoryDict, score, diseaseScore, demographicScore⟩ := state
    rcases List.mem_cons.mp hMem with hEq | hTail
    · subst hEq
      rw [Option.isSome_iff_exists] at hDef
      obtain ⟨value, hValue⟩ := hDef
      refine ⟨"KeyError: " ++ cat, ?_⟩
      unfold getWeightsLoop
      rw [hValue, hWeight]
    · unfold getWeightsLoop
      cases hL : categoryDefinitions.lookup c with
      | none => exact ih _ hTail hDef hWeight
      | some value =>
        cases hW : (categoryWeights.lookup c).bind (fun m => m.lookup population) with
        | none => exact ⟨"KeyError: " ++ c, rfl⟩
        | some weight => exact ih _ hTail hDef hWeight

/-- C4: the claim states that *every* resolved category with no weight entry
aborts the call.  Refuted: a category absent from `category_definitions`
never reaches the weight lookup — `get_weights` on the unknown category
`HCC999` (absent from both tables) succeeds with zero raw and adjusted
scores instead of raising. -/
theorem C4_counterexample :
    getWeights [("HCC1", ⟨"disease", some 1, "HIV/AIDS"⟩)] [("HCC1", [("CNA", 3 / 10)])]
        (941 / 1000) (1015 / 1000) ["HCC999"] "CNA" =
      .ok
        { categories := [], scoreRaw := 0, diseaseScoreRaw := 0, demographicScoreRaw := 0
          score := applyNormFactorCodingAdj (941 / 1000) (1015 / 1000) 0
          diseaseScore := applyNormFactorCodingAdj (941 / 1000) (1015 / 1000) 0
          demographicScore := applyNormFactorCodingAdj (941 / 1000) (1015 / 1000) 0 } ∧
    (List.lookup "HCC999" [("HCC1", [("CNA", (3 : ℚ) / 10)])]).bind
        (fun m => m.lookup "CNA") = none ∧
    applyNormFactorCodingAdj (941 / 1000) (1015 / 1000) 0 = 0 := by
  refine ⟨rfl, rfl, ?_⟩
  norm_num [applyNormFactorCodingAdj, pyRound, roundHalfEven]

/-- C4 (amended): for a category that has an entry in
`category_definitions`, a missing weight entry for the population aborts
`get_weights` with a `KeyError` — it never contributes a silent zero; a
category with no definition entry, however, is silently skipped. -/
theorem C4_amended (categoryDefinitions : List (String × CategoryDefinition))
    (categoryWeights : List (String × List (String × ℚ)))
    (codingIntesityAdjuster normalizationFactor : ℚ)
    (categories : List String) (population cat : String)
    (hMem : cat ∈ categories)
    (hDef : (categoryDefinitions.lookup cat).isSome = true)
    (hWeight : (categoryWeights.lookup cat).bind (fun m => m.lookup population) = none) :
    ∃ e, getWeights categoryDefinitions categoryWeights codingIntesityAdjuster
        normalizationFactor categories population = .error e := by
  obtain ⟨e, he⟩ := getWeightsLoop_missing_weight categoryDefinitions categoryWeights
    population cat categories ([], 0, 0, 0) hMem hDef hWeight
  refine ⟨e, ?_⟩
  unfold getWeights
  rw [he]

/-- C4 witness: the amended abort property at a concrete table in which
`HCC1` is defined but has no weight row at all. -/
theorem C4_amended_witness :
    ∃ e, getWeights [("HCC1", ⟨"disease", some 1, "HIV/AIDS"⟩)] [] 1 1 ["HCC1"] "CNA" =
      .error e :=
  C4_amended [("HCC1", ⟨"disease", some 1, "HIV/AIDS"⟩)] [] 1 1 ["HCC1"] "CNA" "HCC1"
    (by decide) (by decide) (by decide)

/-- C5: the claim (with the spec) requires an error to surface when the
resolved age matches no demographic band.  The code does not raise: at age
`-1` under the community population `determine_age_band` returns `None`,
`_determine_demographic_cats` interpolates it into the literal category name
`MNone`, and downstream `get_weights` silently skips the unknown name,
returning zero scores — the failure never surfaces. -/
theorem C5_failing_eval :
    determineAgeBand (-1) communityDemoCategoryRanges = none ∧
    determineDemographicCats (-1) "M" "CNA" = "MNone" ∧
    getWeights [("M65_69", ⟨"demographic", none, "Male, 65 to 69 Years Old"⟩)]
        [("M65_69", [("CNA", 1 / 2)])] 1 1 ["MNone"] "CNA" =
      .ok
        { categories := [], scoreRaw := 0, diseaseScoreRaw := 0, demographicScoreRaw := 0
          score := applyNormFactorCodingAdj 1 1 0
          diseaseScore := applyNormFactorCodingAdj 1 1 0
          demographicScore := applyNormFactorCodingAdj 1 1 0 } ∧
    applyNormFactorCodingAdj 1 1 0 = 0 := by
  refine ⟨by decide, by decide, rfl, ?_⟩
  norm_num [applyNormFactorCodingAdj, pyRound, roundHalfEven]

/-- C6: the claim (with the spec) says `score()` never modifies the shared
reference tables.  `CommercialModel.score` (model.py) refutes it: its
weight-table pare-down is assigned back onto
`self.reference_files.category_weights`, so one call rewrites the table
(keys stripped of the age-group marker, other age groups deleted), and a
second identical call, paring the already-stripped keys, is left with an
empty weight table. -/
theorem C6_failing_eval :
    scorePareWeightsStep "Adult"
        ⟨[("Adult_HHS_HCC001", 1 / 2), ("Child_HHS_HCC001", 3 / 10)]⟩ =
      ⟨[("HHS_HCC001", 1 / 2)]⟩ ∧
    (⟨[("HHS_HCC001", 1 / 2)]⟩ : ReferenceFilesState) ≠
      ⟨[("Adult_HHS_HCC001", 1 / 2), ("Child_HHS_HCC001", 3 / 10)]⟩ ∧
    (scorePareWeightsStep "Adult"
        (scorePareWeightsStep "Adult"
          ⟨[("Adult_HHS_HCC001", 1 / 2), ("Child_HHS_HCC001", 3 / 10)]⟩)).categoryWeights =
      [] := by
  refine ⟨rfl, ?_, rfl⟩
  intro h
  exact absurd (congrArg (fun rf => rf.categoryWeights.length) h) (by decide)

/-- C7: the claim (with the spec) says a beneficiary built from a date of
birth alone has its disabled flags computed from the resolved age.
Refuted by the code: `MedicareBeneficiary.__init__` passes the raw
`self.age` — still `None` — to `_determine_disabled`, whose `age < 65`
comparison raises `TypeError`, even though `_determine_age` had already
resolved the age (here to 68) from the date of birth. -/
theorem C7_failing_eval :
    medicareBeneficiaryInit "F" "0" false "CNA" none (some ⟨1955, 3, 15⟩) (some 2024) =
      .error "TypeError: comparison of NoneType and int" ∧
    determineAge (some 2024) none (some ⟨1955, 3, 15⟩) = .ok (some 68) := by
  decide

/-- C8: the claim says `_determine_disease_interactions` returns a list
containing every input category, each firing rule appending exactly one new
category.  The v24 implementation satisfies it (`interactions.extend`), but
the `model.py` base placeholder executes `interactions.append(categories)`,
nesting the whole input list as a single element: no input category is
itself an element of its result. -/
theorem C8_extend_vs_append :
    (∀ (mkCategory : String → CategoryObj) (disabled : Bool) (categories : List CategoryObj),
      categories <:+ v24DetermineDiseaseInteractions mkCategory disabled categories) ∧
    (∀ (mkCategory : String → CategoryObj) (disabled : Bool) (categories : List CategoryObj),
      (v24DetermineDiseaseInteractions mkCategory disabled categories).length =
        (v24InteractionList disabled (diseaseCategoryNames categories)).length +
          categories.length) ∧
    commercialDetermineDiseaseInteractionsBase (fun c => ⟨c, "disease_interaction"⟩)
        [⟨"HHS_HCC001", "disease"⟩] =
      [InteractionEntry.objList [⟨"HHS_HCC001", "disease"⟩]] ∧
    InteractionEntry.obj ⟨"HHS_HCC001", "disease"⟩ ∉
      commercialDetermineDiseaseInteractionsBase (fun c => ⟨c, "disease_interaction"⟩)
        [⟨"HHS_HCC001", "disease"⟩] := by
  refine ⟨fun mkCategory disabled categories => List.suffix_append _ _,
    fun mkCategory disabled categories => ?_, by decide, by decide⟩
  simp [v24DetermineDiseaseInteractions]

/-- C9: the payment count bucket is monotone — prefixing one more qualifying
category never decreases the bucket's rank; the bucket is `D10P` for ten or
more categories; and for counts one through nine it is `D{n}`, ranked `n`. -/
theorem C9_count_monotone (categories : List String) (newCategory : String) :
    countBucketRank (determinePaymentCountCategory categories) ≤
      countBucketRank (determinePaymentCountCategory (newCategory :: categories)) ∧
    (9 < categories.length → determinePaymentCountCategory categories = some "D10P") ∧
    (∀ n : Nat, 0 < n → n ≤ 9 →
      countBucketRank (some ("D" ++ toString n)) = n ∧
      ∀ cats : List String, cats.length = n →
        determinePaymentCountCategory cats = some ("D" ++ toString n)) := by
  refine ⟨?_, ?_, ?_⟩
  · simp only [determinePaymentCountCategory, List.length_cons]
    generalize categories.length = n
    by_cases h9 : 9 < n
    · rw [if_pos h9, if_pos (Nat.lt_succ_of_lt h9)]
    · push_neg at h9
      interval_cases n <;> decide
  · intro h9
    unfold determinePaymentCountCategory
    rw [if_pos h9]
  · intro n hPos hLe
    constructor
    · interval_cases n <;> decide
    · intro cats hLen
      unfold determinePaymentCountCategory
      rw [hLen]
      interval_cases n <;> decide

/-- C9 witness: the monotonicity, cap and labelling facts at concrete
inputs: one category versus two, a ten-category list, and the `D5` label. -/
theorem C9_count_monotone_witness :
    (countBucketRank (determinePaymentCountCategory ["HCC1"]) ≤
      countBucketRank (determinePaymentCountCategory ("HCC2" :: ["HCC1"]))) ∧
    determinePaymentCountCategory
        ["c1", "c2", "c3", "c4", "c5", "c6", "c7", "c8", "c9", "c10"] = some "D10P" ∧
    countBucketRank (some ("D" ++ toString 5)) = 5 :=
  ⟨(C9_count_monotone ["HCC1"] "HCC2").1,
   (C9_count_monotone ["c1", "c2", "c3", "c4", "c5", "c6", "c7", "c8", "c9", "c10"]
      "x").2.1 (by decide),
   ((C9_count_monotone [] "x").2.2 5 (by decide) (by decide)).1⟩

/-- C10: for every non-negative age, any orec string and any medicaid flag,
`_get_new_enrollee_population` returns (never raises) exactly the population
given by crossing originally-disabled (age at least 65 and orec `1`) with
medicaid, so its `ValueError` branch is unreachable and the result is always
one of the four new-enrollee populations. -/
theorem C10_ne_population_total (age : Int) (orec : String) (medicaid : Bool)
    (hAge : 0 ≤ age) :
    getNewEnrolleePopulation age orec medicaid =
      .ok
        (if 65 ≤ age ∧ orec = "1" then
          (if medicaid then "NE_MCAID_ORIGDIS" else "NE_NMCAID_ORIGDIS")
         else
          (if medicaid then "NE_MCAID_NORIGDIS" else "NE_NMCAID_NORIGDIS")) ∧
    ∀ p, getNewEnrolleePopulation age orec medicaid = .ok p →
      p ∈ ["NE_NMCAID_NORIGDIS", "NE_MCAID_NORIGDIS", "NE_NMCAID_ORIGDIS",
           "NE_MCAID_ORIGDIS"] := by
  have hMain : getNewEnrolleePopulation age orec medicaid =
      .ok
        (if 65 ≤ age ∧ orec = "1" then
          (if medicaid then "NE_MCAID_ORIGDIS" else "NE_NMCAID_ORIGDIS")
         else
          (if medicaid then "NE_MCAID_NORIGDIS" else "NE_NMCAID_NORIGDIS")) := by
    unfold getNewEnrolleePopulation
    by_cases h65 : 65 ≤ age <;> by_cases h1 : orec = "1" <;> cases medicaid <;>
      simp [h65, h1, ge_iff_le]
  refine ⟨hMain, fun p hp => ?_⟩
  rw [hMain] at hp
  cases hp
  by_cases hOrig : 65 ≤ age ∧ orec = "1" <;> cases medicaid <;> simp [hOrig]

/-- C10 witness: the population split at age 70, orec `1`, medicaid true. -/
theorem C10_ne_population_total_witness :
    getNewEnrolleePopulation 70 "1" true = .ok "NE_MCAID_ORIGDIS" ∧
    "NE_MCAID_ORIGDIS" ∈
      ["NE_NMCAID_NORIGDIS", "NE_MCAID_NORIGDIS", "NE_NMCAID_ORIGDIS",
       "NE_MCAID_ORIGDIS"] := by
  have h := C10_ne_population_total 70 "1" true (by decide)
  have h1 := h.1
  rw [if_pos (by norm_num : (65 : Int) ≤ 70 ∧ ("1" : String) = "1")] at h1
  exact ⟨by simpa using h1, h.2 "NE_MCAID_ORIGDIS" (by simpa using h1)⟩
